import Mathlib

/-!
Shallow embedding of the token lifecycle and access-control core of the
TrainerFastAPI repository: the token service
(`app/services/auth/token_service.py`), the authentication service
(`app/services/auth/authentication_service.py`), the authorization gate
(`app/core/security/auth.py`), the auth endpoints
(`app/api/v1/endpoints/user/auth.py`) and the verification-token endpoints
(`app/api/v1/endpoints/user/background.py`).

Conventions of the embedding:
* times are UTC unix seconds (`Nat`); `timedelta(minutes=15)` becomes `15 * 60`;
* a serialized JWT is modelled by the `Jwt` structure: the signed blob
  determines, and is determined by, its claims and the key that signed it,
  so string equality of two JWTs is structural equality here;
* the relational store is a `Store` of row lists; one call of an endpoint
  is one atomic transaction, so an endpoint is a pure function
  `Store → Store × result`;
* scope sets are `Finset String`, matching the Python `set` of role names.
-/

namespace TrainerAuth

/-- Token kind from `app/db/models/enums.py` (used as the literals
`'ACCESS'` / `'REFRESH'` in the relationship joins of
`app/db/models/user.py`). -/
inductive TokenTypeEnum
  | ACCESS
  | REFRESH
deriving DecidableEq

/-- The JWT claims written by `create_token`: `sub` (stringified user id,
absent for foreign tokens), `scopes`, `exp`. -/
structure Payload where
  sub : Option Nat
  scopes : Finset String
  exp : Nat
deriving DecidableEq

/-- A serialized JWT: claims plus the secret that signed it.  `jose.jwt`
serialization is injective on (claims, key), so the token string is
identified with this pair. -/
structure Jwt where
  payload : Payload
  key : String
deriving DecidableEq

/-- The token settings of `app/core/config.py` (`APITokensConfig`):
two distinct signing secrets, one algorithm (the algorithm is fixed and
omitted). -/
structure ApiTokens where
  TAPI_TOKEN_ACCESS_SECRET_KEY : String
  TAPI_TOKEN_REFRESH_SECRET_KEY : String
deriving DecidableEq

/-- Errors of `jose.jwt.decode`: `ExpiredSignatureError` is raised by the
library itself when the `exp` claim is in the past, `JWTError` covers a bad
signature. -/
inductive JwtDecodeError
  | expiredSignature
  | jwtError
deriving DecidableEq

/-- `jose.jwt.decode(token, key, algorithms=[...])`: verifies the signature
first, then rejects an expired `exp` claim (strictly past), else returns the
claims. -/
def jose_decode (token : Jwt) (key : String) (now : Nat) :
    Except JwtDecodeError Payload :=
  if token.key ≠ key then Except.error JwtDecodeError.jwtError
  else if token.payload.exp < now then Except.error JwtDecodeError.expiredSignature
  else Except.ok token.payload

/-- `create_token` of `app/services/auth/token_service.py`: picks the secret
and TTL by `type_token` (ACCESS: access secret, 15 minutes; otherwise refresh
secret, 7 days), signs `{sub, scopes, exp}`, returns the token and its
expiry. -/
def create_token (cfg : ApiTokens) (now : Nat) (sub : Nat)
    (scopes : Finset String) (type_token : TokenTypeEnum) : Jwt × Nat :=
  let type_secret_key :=
    if type_token = TokenTypeEnum.ACCESS then cfg.TAPI_TOKEN_ACCESS_SECRET_KEY
    else cfg.TAPI_TOKEN_REFRESH_SECRET_KEY
  let expires_delta :=
    if type_token = TokenTypeEnum.ACCESS then 15 * 60 else 7 * 24 * 60 * 60
  let expire := now + expires_delta
  (⟨⟨some sub, scopes, expire⟩, type_secret_key⟩, expire)

/-- The pydantic `TokenBase` schema of `app/db/schemas/user.py`. -/
structure TokenBase where
  user_id : Nat
  token : Jwt
  expires_at : Nat
  token_type : TokenTypeEnum
deriving DecidableEq

/-- `creating_recording_token_to_user`: builds a `TokenBase` for the given
kind.  The source calls `create_token(data=..., scopes=token_scopes)` without
forwarding `type_token`, so `create_token` always runs with its Python
default `type_token=ACCESS` (written explicitly below): access secret and
15-minute TTL even when the requested kind is REFRESH; only the schema
field records that kind. -/
def creating_recording_token_to_user (cfg : ApiTokens) (now : Nat)
    (user_id : Nat) (token_scopes : Finset String)
    (type_token : TokenTypeEnum) : TokenBase :=
  let tk := create_token cfg now user_id token_scopes TokenTypeEnum.ACCESS
  ⟨user_id, tk.1, tk.2, type_token⟩

/-- A row of the `tokens` table (`Token` model in
`app/db/models/user.py`); `ban` has server default false. -/
structure Token where
  user_id : Nat
  token : Jwt
  token_type : TokenTypeEnum
  expires_at : Nat
  ban : Bool
deriving DecidableEq

/-- `creating_recording_all_token_to_user`: inside one transaction it runs
`update(Token).where(Token.user_id == user.id).values(ban=True)`, mints an
ACCESS and a REFRESH `TokenBase`, appends a row built from the REFRESH one
only (`user.tokens.append(Token(**refresh_token.model_dump()))` — the access
token is returned but never stored), and returns both token strings. -/
def creating_recording_all_token_to_user (cfg : ApiTokens)
    (tokens : List Token) (user_id : Nat) (token_scopes : Finset String)
    (now : Nat) : List Token × Jwt × Jwt :=
  let banned := tokens.map
    (fun t => if t.user_id = user_id then { t with ban := true } else t)
  let access_token :=
    creating_recording_token_to_user cfg now user_id token_scopes
      TokenTypeEnum.ACCESS
  let refresh_token :=
    creating_recording_token_to_user cfg now user_id token_scopes
      TokenTypeEnum.REFRESH
  let stored := banned ++
    [⟨refresh_token.user_id, refresh_token.token, refresh_token.token_type,
      refresh_token.expires_at, false⟩]
  (stored, access_token.token, refresh_token.token)

/-- `creating_recording_access_token_to_user`: mints an ACCESS token and
returns its string; nothing is written to the store. -/
def creating_recording_access_token_to_user (cfg : ApiTokens)
    (user_id : Nat) (token_scopes : Finset String) (now : Nat) : Jwt :=
  (creating_recording_token_to_user cfg now user_id token_scopes
    TokenTypeEnum.ACCESS).token

/-- A row of the `users` table (`User` model); `roles` is the set of role
names reachable through the `UserRole` association. -/
structure User where
  id : Nat
  email : Option String
  password : String
  is_banned : Bool
  ban_until : Option Nat
  failed_attempts : Nat
  is_email_confirmed : Bool
  roles : Finset String
deriving DecidableEq

/-- Abstract bcrypt: hashing is some fixed injection of the plaintext.  The
one-way property of the real primitive is outside the model; the embedding
only needs that verification succeeds exactly on the matching plaintext. -/
def bcrypt_hash (plain : String) : String := String.append "$2b$" plain

/-- `verify_password` of `app/services/auth/authentication_service.py`:
passlib bcrypt verification of the plaintext against the stored hash. -/
def verify_password (plain_password hashed_password : String) : Bool :=
  hashed_password = bcrypt_hash plain_password

/-- Rows of the `email_verification_tokens` and `reset_password_tokens`
tables (`EmailVerificationToken` / `ResetPasswordToken` models). -/
structure VerificationTokenRow where
  email : String
  token : String
  ban : Bool
  expires_at : Nat
deriving DecidableEq

/-- A row of `change_email_verification_tokens`
(`ChangeEmailVerificationToken` model): also carries the new address. -/
structure ChangeEmailTokenRow where
  email : String
  new_email : String
  token : String
  ban : Bool
  expires_at : Nat
deriving DecidableEq

/-- The slice of the relational store the embedded endpoints touch. -/
structure Store where
  users : List User
  tokens : List Token
  email_verification_tokens : List VerificationTokenRow
  change_email_verification_tokens : List ChangeEmailTokenRow
  reset_password_tokens : List VerificationTokenRow
deriving DecidableEq

/-- The exception classes of `app/core/exceptions.py` raised by the embedded
code paths. -/
inductive AuthError
  | TokenExpiredException
  | InvalidJWTException
  | UserIdNotFoundException
  | ForbiddenAccessException
  | UserNotFoundException
  | TokenMismatchException
  | UserBannedException
  | EmailOrPasswordInvalidException
  | RefreshPasswordInvalidException
  | ForbiddenException
  | TokenNotFoundException
deriving DecidableEq

/-- `UsersDAO.find_one_or_none_by_id_with_tokens`: first user row with the
given id. -/
def find_one_or_none_by_id_with_tokens (users : List User) (data_id : Nat) :
    Option User :=
  users.find? (fun u => decide (u.id = data_id))

/-- `UserDAO.find_one_user_or_none(_with_tokens)` filtered by an
`EmailModel`: first user row with the given email. -/
def find_user_by_email (users : List User) (email : String) : Option User :=
  users.find? (fun u => decide (u.email = some email))

/-- The stored-token query of `get_current_user`:
`select(Token).where(user_id == u, token_type == ACCESS, ban == False,
token == presented)`. -/
def lookup_access_token (tokens : List Token) (user_id : Nat) (tok : Jwt) :
    Option Token :=
  tokens.find? (fun t => decide (t.user_id = user_id ∧
    t.token_type = TokenTypeEnum.ACCESS ∧ t.ban = false ∧ t.token = tok))

/-- The stored-token query of the `refresh` endpoint: same filter with
kind REFRESH. -/
def lookup_refresh_token (tokens : List Token) (user_id : Nat) (tok : Jwt) :
    Option Token :=
  tokens.find? (fun t => decide (t.user_id = user_id ∧
    t.token_type = TokenTypeEnum.REFRESH ∧ t.ban = false ∧ t.token = tok))

/-- `get_current_user` of `app/core/security/auth.py`: decode with the
ACCESS secret (jose reports expiry itself), require a `sub`, require that an
empty `security_scopes` list or any declared scope present in the token
scopes grants access, re-check expiry, and only then query the store: user
by id, then the non-banned ACCESS row holding the presented string, then the
account ban flag.  The `last_login_attempt` touch has no bearing on the
result and is omitted. -/
def get_current_user (cfg : ApiTokens) (security_scopes : List String)
    (token : Jwt) (st : Store) (now : Nat) : Except AuthError User :=
  match jose_decode token cfg.TAPI_TOKEN_ACCESS_SECRET_KEY now with
  | Except.error JwtDecodeError.expiredSignature =>
      Except.error AuthError.TokenExpiredException
  | Except.error JwtDecodeError.jwtError =>
      Except.error AuthError.InvalidJWTException
  | Except.ok payload =>
    match payload.sub with
    | none => Except.error AuthError.UserIdNotFoundException
    | some user_id =>
      if (security_scopes.isEmpty ||
          security_scopes.any (fun s => decide (s ∈ payload.scopes)))
          = false then Except.error AuthError.ForbiddenAccessException
      else if payload.exp < now then Except.error AuthError.TokenExpiredException
      else
        match find_one_or_none_by_id_with_tokens st.users user_id with
        | none => Except.error AuthError.UserNotFoundException
        | some user =>
          match lookup_access_token st.tokens user.id token with
          | none => Except.error AuthError.TokenMismatchException
          | some _ =>
            if user.is_banned then Except.error AuthError.UserBannedException
            else Except.ok user

/-- `authenticate_user`: looks the user up by email with tokens; a missing
user is returned as `none`, a wrong password raises
`RefreshPasswordInvalidException`.  Nothing is written.  (The phone branch
is the same shape and is not needed by any claim.) -/
def authenticate_user (users : List User) (password : String)
    (email : String) : Except AuthError (Option User) :=
  match find_user_by_email users email with
  | none => Except.ok none
  | some user =>
      if verify_password password user.password then Except.ok (some user)
      else Except.error AuthError.RefreshPasswordInvalidException

/-- `login_user` of `app/api/v1/endpoints/user/auth.py`, email branch:
authenticate (missing user ⇒ `EmailOrPasswordInvalidException`, wrong
password propagates from `authenticate_user`), reject a banned account,
reject any requested scope outside the account roles
(`ForbiddenException`), intersect roles with the requested scopes when some
were requested, and issue the pair.  No failed-attempt counting and no
lazy-unban call appear anywhere on this path. -/
def login_user (cfg : ApiTokens) (st : Store) (email password : String)
    (scopes : Finset String) (now : Nat) :
    Store × Except AuthError (Jwt × Jwt) :=
  match authenticate_user st.users password email with
  | Except.error e => (st, Except.error e)
  | Except.ok none => (st, Except.error AuthError.EmailOrPasswordInvalidException)
  | Except.ok (some user) =>
    if user.is_banned then (st, Except.error AuthError.UserBannedException)
    else
      if scopes ⊆ user.roles then
        ({ st with tokens := (creating_recording_all_token_to_user cfg
            st.tokens user.id (if scopes = ∅ then user.roles
              else user.roles ∩ scopes) now).1 },
          Except.ok
            ((creating_recording_all_token_to_user cfg st.tokens user.id
              (if scopes = ∅ then user.roles else user.roles ∩ scopes)
              now).2.1,
             (creating_recording_all_token_to_user cfg st.tokens user.id
              (if scopes = ∅ then user.roles else user.roles ∩ scopes)
              now).2.2))
      else (st, Except.error AuthError.ForbiddenException)

/-- The `refresh` endpoint: cookie required, decoded with the REFRESH secret
(any `JWTError`, expiry included, maps to `InvalidJWTException` there),
`sub` required, user loaded, the stored non-banned REFRESH row holding the
cookie string required, then the scopes of the cookie are intersected with
the account roles only when non-empty (an empty list stays empty), and an
access token is minted without storing anything. -/
def refresh (cfg : ApiTokens) (st : Store) (refresh_cookie : Option Jwt)
    (now : Nat) : Store × Except AuthError Jwt :=
  match refresh_cookie with
  | none => (st, Except.error AuthError.TokenNotFoundException)
  | some refresh_token =>
    match jose_decode refresh_token cfg.TAPI_TOKEN_REFRESH_SECRET_KEY now with
    | Except.error _ => (st, Except.error AuthError.InvalidJWTException)
    | Except.ok payload =>
      match payload.sub with
      | none => (st, Except.error AuthError.UserIdNotFoundException)
      | some user_id =>
        match find_one_or_none_by_id_with_tokens st.users user_id with
        | none => (st, Except.error AuthError.UserNotFoundException)
        | some user =>
          match lookup_refresh_token st.tokens user.id refresh_token with
          | none => (st, Except.error AuthError.TokenMismatchException)
          | some _ =>
            (st, Except.ok
              (creating_recording_access_token_to_user cfg user.id
                (if payload.scopes = ∅ then payload.scopes
                 else user.roles ∩ payload.scopes) now))

/-- The `logout_user` response: which cookies were deleted. -/
structure LogoutResult where
  deleted_cookies : List String
deriving DecidableEq

/-- `logout_user`: executes `user_data.tokens.ban = True` — an assignment to
an attribute of the relationship collection object, which modifies no
`Token` row (the `User` model declares no `tokens` relationship at all, only
`access_token_assoc` / `refresh_token_assoc`) — then deletes the four
cookies.  The store is returned unchanged. -/
def logout_user (st : Store) (_user : User) : Store × LogoutResult :=
  (st, ⟨["access_token", "refresh_token", "site_token", "csrf_token"]⟩)

/-- `handle_failed_login`: returns the updated user row and whether the 403
lockout response was produced.  A banned user is left untouched; otherwise
the counter is incremented and reaching 10 sets the ban for 10 minutes. -/
def handle_failed_login (user : User) (now : Nat) : User × Bool :=
  if user.is_banned then (user, false)
  else
    let user1 := { user with failed_attempts := user.failed_attempts + 1 }
    if 10 ≤ user1.failed_attempts then
      ({ user1 with is_banned := true, ban_until := some (now + 10 * 60) }, true)
    else (user1, false)

/-- `check_user_ban`: `none` models the `AttributeError` the source raises
on `user.ban_until.replace(...)` when a banned user has a null `ban_until`.
Otherwise: not banned ⇒ unchanged; ban elapsed ⇒ flags reset; ban active ⇒
remaining whole minutes reported. -/
def check_user_ban (user : User) (now : Nat) :
    Option (User × Option Nat) :=
  if user.is_banned = false then some (user, none)
  else
    match user.ban_until with
    | none => none
    | some ban_until =>
      if ban_until ≤ now then
        some ({ user with is_banned := false, failed_attempts := 0, ban_until := none }, none)
      else some (user, some ((ban_until - now) / 60))

/-- Outcomes of the three background verification endpoints; the exception
values are returned (not raised) by the source. -/
inductive BgResult
  | TokenNotFoundException
  | TokenExpiredException
  | UserNotFoundException
  | success
deriving DecidableEq

/-- `verify_email` of `app/api/v1/endpoints/user/background.py`: find the
row by token string; expired (`now > expires_at`) or banned rows are
rejected; find the user by the row email; then, in the same transaction,
ban the verification row and set `is_email_confirmed`. -/
def verify_email (st : Store) (tok : String) (now : Nat) :
    Store × BgResult :=
  match st.email_verification_tokens.find? (fun t => decide (t.token = tok)) with
  | none => (st, BgResult.TokenNotFoundException)
  | some token_data =>
    if token_data.expires_at < now ∨ token_data.ban then
      (st, BgResult.TokenExpiredException)
    else
      match find_user_by_email st.users token_data.email with
      | none => (st, BgResult.UserNotFoundException)
      | some user =>
        let toks := st.email_verification_tokens.map (fun t =>
          if t.token = token_data.token then { t with ban := true } else t)
        let users := st.users.map (fun u =>
          if u.id = user.id then { u with is_email_confirmed := true } else u)
        ({ st with email_verification_tokens := toks, users := users },
          BgResult.success)

/-- `verify_email_for_change_email`: same lookup and rejection shape; on
success the row is banned and the user gets the new email, in one
transaction. -/
def verify_email_for_change_email (st : Store) (tok : String) (now : Nat) :
    Store × BgResult :=
  match st.change_email_verification_tokens.find?
      (fun t => decide (t.token = tok)) with
  | none => (st, BgResult.TokenNotFoundException)
  | some token_data =>
    if token_data.expires_at < now ∨ token_data.ban then
      (st, BgResult.TokenExpiredException)
    else
      match find_user_by_email st.users token_data.email with
      | none => (st, BgResult.UserNotFoundException)
      | some user =>
        let toks := st.change_email_verification_tokens.map (fun t =>
          if t.token = token_data.token then { t with ban := true } else t)
        let users := st.users.map (fun u =>
          if u.id = user.id then
            { u with email := some token_data.new_email, is_email_confirmed := true }
          else u)
        ({ st with change_email_verification_tokens := toks, users := users },
          BgResult.success)

/-- `applying_new_password`: same lookup and rejection shape on the
reset-password table; on success only the user password is replaced — the
source never sets `ban=True` on the `ResetPasswordToken` row. -/
def applying_new_password (st : Store) (tok : String) (password : String)
    (now : Nat) : Store × BgResult :=
  match st.reset_password_tokens.find? (fun t => decide (t.token = tok)) with
  | none => (st, BgResult.TokenNotFoundException)
  | some token_data =>
    if token_data.expires_at < now ∨ token_data.ban then
      (st, BgResult.TokenExpiredException)
    else
      match find_user_by_email st.users token_data.email with
      | none => (st, BgResult.UserNotFoundException)
      | some user =>
        let users := st.users.map (fun u =>
          if u.id = user.id then { u with password := password } else u)
        ({ st with users := users }, BgResult.success)

/-- The four token-only checks of `get_current_user` in source order —
signature, expiry (`jose` raises `ExpiredSignatureError` during decode, so
the later in-line expiry comparison of the source can never fire on a
decoded token), subject presence, required-scope overlap — with the deny
reason each failure produces.  Used to state which part of the gate is
independent of the store. -/
def early_checks (cfg : ApiTokens) (security_scopes : List String)
    (token : Jwt) (now : Nat) : Option AuthError :=
  if token.key ≠ cfg.TAPI_TOKEN_ACCESS_SECRET_KEY then
    some AuthError.InvalidJWTException
  else if token.payload.exp < now then some AuthError.TokenExpiredException
  else match token.payload.sub with
    | none => some AuthError.UserIdNotFoundException
    | some _ =>
      if (security_scopes.isEmpty ||
          security_scopes.any (fun s => decide (s ∈ token.payload.scopes)))
          = false then
        some AuthError.ForbiddenAccessException
      else none

deriving instance DecidableEq for Except

/-- Concrete configuration used by the concrete evaluation theorems:
distinct access and refresh secrets, as the deployment configuration
requires. -/
def cfg0 : ApiTokens := ⟨"access-secret", "refresh-secret"⟩

/-- A concrete active account with role USER whose password is
`"correct"`. -/
def user5 : User :=
  ⟨1, some "u@x.com", bcrypt_hash "correct", false, none, 0, true, {"USER"}⟩

/-- Store holding only `user5`. -/
def st5 : Store := ⟨[user5], [], [], [], []⟩

/-- A pre-existing non-banned ACCESS row of account 1. -/
def oldAccessRow : Token :=
  ⟨1, ⟨⟨some 1, {"USER"}, 800⟩, "access-secret"⟩, TokenTypeEnum.ACCESS, 800,
    false⟩

/-- The access token `login_user cfg0 st5 "u@x.com" "correct" ∅ 0` mints
(and, because `create_token` is never told the kind, also the refresh token
it mints). -/
def aTok : Jwt := ⟨⟨some 1, {"USER"}, 900⟩, "access-secret"⟩

/-- The store produced by that login: the minted refresh string stored as
the only (non-banned, REFRESH) row of account 1. -/
def st2c : Store :=
  ⟨[user5], [⟨1, aTok, TokenTypeEnum.REFRESH, 900, false⟩], [], [], []⟩

/-- A concrete account for the verification-token scenarios. -/
def user4 : User :=
  ⟨1, some "u@x.com", bcrypt_hash "old", false, none, 0, false, {"USER"}⟩

/-- A live reset-password token row for `user4`. -/
def resetRow : VerificationTokenRow := ⟨"u@x.com", "rpt", false, 1000⟩

/-- A live email-verification token row for `user4`. -/
def evRow : VerificationTokenRow := ⟨"u@x.com", "evt", false, 1000⟩

/-- Store holding `user4` and both verification rows. -/
def st4 : Store := ⟨[user4], [], [evRow], [], [resetRow]⟩

/-- A refresh-secret-signed cookie for account 1 with an empty scope list. -/
def tr6 : Jwt := ⟨⟨some 1, ∅, 1000⟩, "refresh-secret"⟩

/-- The stored non-banned REFRESH row holding `tr6`. -/
def row6 : Token := ⟨1, tr6, TokenTypeEnum.REFRESH, 1000, false⟩

/-- Store holding `user5` (roles = USER) and the live refresh row `row6`. -/
def st6 : Store := ⟨[user5], [row6], [], [], []⟩

/-- An account locked until t = 100 whose password is `"correct"`. -/
def user7 : User :=
  ⟨1, some "u@x.com", bcrypt_hash "correct", true, some 100, 3, true,
    {"USER"}⟩

/-- Store holding only the locked `user7`. -/
def st7 : Store := ⟨[user7], [], [], [], []⟩

/-- A well-signed access token that expired at t = 100 and carries no
scopes. -/
def tok9 : Jwt := ⟨⟨some 1, ∅, 100⟩, "access-secret"⟩

/-- An active account whose failed-attempt counter stands at 8. -/
def user8 : User :=
  ⟨2, some "b@x.com", bcrypt_hash "pw", false, none, 8, true, {"USER"}⟩

/-- An active account whose failed-attempt counter stands at 9. -/
def user9c : User :=
  ⟨3, some "c@x.com", bcrypt_hash "pw", false, none, 9, true, {"USER"}⟩

/-- The access token the refresh endpoint mints from the empty-scoped
cookie `tr6`. -/
def acc6 : Jwt := ⟨⟨some 1, ∅, 900⟩, "access-secret"⟩

/-- A successful `jose_decode` returns exactly the claims of the presented
token, and certifies the key match and the non-expired clock. -/
theorem jose_decode_ok {tok : Jwt} {key : String} {now : Nat} {p : Payload}
    (h : jose_decode tok key now = Except.ok p) :
    p = tok.payload ∧ tok.key = key ∧ ¬ tok.payload.exp < now := by
  unfold jose_decode at h
  split at h
  · cases h
  · split at h
    · cases h
    · rename_i hkey hexp
      refine ⟨(Except.ok.inj h).symm, ?_, hexp⟩
      exact not_not.mp hkey

/-- After `creating_recording_all_token_to_user`, the only row of the
account that is not banned is the appended REFRESH row. -/
theorem issue_no_active_access (cfg : ApiTokens) (tokens : List Token)
    (uid : Nat) (scopes : Finset String) (now : Nat) :
    ∀ t ∈ (creating_recording_all_token_to_user cfg tokens uid scopes now).1,
      t.user_id = uid → t.ban = false → t.token_type = TokenTypeEnum.REFRESH := by
  intro t ht huid hban
  unfold creating_recording_all_token_to_user at ht
  simp only [List.mem_append, List.mem_map, List.mem_singleton] at ht
  rcases ht with ⟨s, _, hfs⟩ | hrow
  · by_cases hs : s.user_id = uid
    · rw [if_pos hs] at hfs
      rw [← hfs] at hban
      cases hban
    · rw [if_neg hs] at hfs
      rw [← hfs] at huid
      exact absurd huid hs
  · rw [hrow]
    rfl

/-- If every live row of the account is a REFRESH row, the gate's stored
ACCESS-token query finds nothing. -/
theorem lookup_access_none_of_no_active {tokens : List Token} {uid : Nat}
    {tok : Jwt}
    (h : ∀ t ∈ tokens, t.user_id = uid → t.ban = false →
      t.token_type = TokenTypeEnum.REFRESH) :
    lookup_access_token tokens uid tok = none := by
  unfold lookup_access_token
  rw [List.find?_eq_none]
  intro t ht
  simp only [decide_eq_true_eq, not_and]
  intro h1 h2 h3 _
  have := h t ht h1 h3
  rw [h2] at this
  cases this

/-- A successful `authenticate_user` found the user by email and verified
the password. -/
theorem authenticate_user_ok_elim {users : List User}
    {password email : String} {user : User}
    (h : authenticate_user users password email = Except.ok (some user)) :
    find_user_by_email users email = some user ∧
      verify_password password user.password = true := by
  unfold authenticate_user at h
  split at h
  · simp at h
  · rename_i u2 hf2
    split at h
    · rename_i hv
      have he : u2 = user := Option.some.inj (Except.ok.inj h)
      subst he
      exact ⟨hf2, hv⟩
    · simp at h

/-- Characterization of a successful login: the user was found by email,
was not banned, the requested scopes were inside the roles, and the
store/tokens are exactly what the token service produced for the granted
scope set. -/
theorem login_user_ok_elim {cfg : ApiTokens} {st : Store}
    {email password : String} {scopes : Finset String} {now : Nat}
    {st2 : Store} {a r : Jwt}
    (h : login_user cfg st email password scopes now
      = (st2, Except.ok (a, r))) :
    ∃ user, find_user_by_email st.users email = some user ∧
      user.is_banned = false ∧ scopes ⊆ user.roles ∧
      st2 = { st with tokens := (creating_recording_all_token_to_user cfg
        st.tokens user.id (if scopes = ∅ then user.roles
          else user.roles ∩ scopes) now).1 } ∧
      a = (creating_recording_all_token_to_user cfg st.tokens user.id
        (if scopes = ∅ then user.roles else user.roles ∩ scopes) now).2.1 ∧
      r = (creating_recording_all_token_to_user cfg st.tokens user.id
        (if scopes = ∅ then user.roles else user.roles ∩ scopes) now).2.2 := by
  unfold login_user at h
  split at h
  · simp at h
  · simp at h
  · rename_i user hauth
    split at h
    · simp at h
    · rename_i hb
      split at h
      · rename_i hsub
        obtain ⟨hst, hok⟩ := Prod.mk.inj h
        obtain ⟨ha, hr⟩ := Prod.mk.inj (Except.ok.inj hok)
        exact ⟨user, (authenticate_user_ok_elim hauth).1,
          eq_false_of_ne_true hb, hsub, hst.symm, ha.symm, hr.symm⟩
      · simp at h

/-- Characterization of a successful refresh: the store is untouched, the
cookie subject resolved to a stored user, and the minted access token is
exactly the token service's output for the cookie scopes (intersected with
the roles only when non-empty). -/
theorem refresh_ok_elim {cfg : ApiTokens} {st : Store} {ck : Jwt} {now : Nat}
    {st2 : Store} {aR : Jwt}
    (h : refresh cfg st (some ck) now = (st2, Except.ok aR)) :
    st2 = st ∧ ∃ uid user, ck.payload.sub = some uid ∧
      find_one_or_none_by_id_with_tokens st.users uid = some user ∧
      aR = creating_recording_access_token_to_user cfg user.id
        (if ck.payload.scopes = ∅ then ck.payload.scopes
         else user.roles ∩ ck.payload.scopes) now := by
  unfold refresh at h
  split at h
  · rename_i hck
    cases hck
  · rename_i rt hck
    injection hck with hck
    subst hck
    split at h
    · simp at h
    · rename_i payload hd
      have hp := (jose_decode_ok hd).1
      subst hp
      split at h
      · simp at h
      · rename_i uid hs
        split at h
        · simp at h
        · rename_i user hu
          split at h
          · simp at h
          · obtain ⟨hst, hok⟩ := Prod.mk.inj h
            exact ⟨hst.symm, uid, user, hs, hu, (Except.ok.inj hok).symm⟩

/-- If the stored ACCESS-token query can find no row for the token's
subject, the gate never allows the token. -/
theorem gate_not_ok_of_lookup_none {cfg : ApiTokens} {ss : List String}
    {tok : Jwt} {st : Store} {now : Nat}
    (h : ∀ uid, tok.payload.sub = some uid →
      lookup_access_token st.tokens uid tok = none) :
    ∀ u, get_current_user cfg ss tok st now ≠ Except.ok u := by
  intro u hok
  unfold get_current_user at hok
  split at hok
  · cases hok
  · cases hok
  · rename_i payload hd
    have hp := (jose_decode_ok hd).1
    subst hp
    split at hok
    · cases hok
    · rename_i uid hs
      split at hok
      · cases hok
      · split at hok
        · cases hok
        · split at hok
          · cases hok
          · rename_i user hu
            have huid : user.id = uid := by
              have := List.find?_some hu
              exact of_decide_eq_true this
            rw [huid, h uid hs] at hok
            cases hok

/-- Unpacking `early_checks = none`: all four token-only checks passed. -/
theorem early_checks_none_elim {cfg : ApiTokens} {ss : List String}
    {tok : Jwt} {now : Nat}
    (h : early_checks cfg ss tok now = none) :
    tok.key = cfg.TAPI_TOKEN_ACCESS_SECRET_KEY ∧ ¬ tok.payload.exp < now ∧
      (∃ uid, tok.payload.sub = some uid) ∧
      ¬ (ss.isEmpty || ss.any (fun s => decide (s ∈ tok.payload.scopes)))
          = false := by
  unfold early_checks at h
  split at h
  · cases h
  · rename_i hkey
    split at h
    · cases h
    · rename_i hexp
      split at h
      · cases h
      · rename_i uid hsub
        split at h
        · cases h
        · rename_i hrig
          exact ⟨not_not.mp hkey, hexp, ⟨uid, hsub⟩, hrig⟩

/-- When the four token-only checks pass, the gate result is exactly the
store phase: user lookup, then stored-ACCESS-token lookup, then the account
ban flag. -/
theorem gate_store_phase {cfg : ApiTokens} {ss : List String} {tok : Jwt}
    {now : Nat} (uid : Nat)
    (hkey : tok.key = cfg.TAPI_TOKEN_ACCESS_SECRET_KEY)
    (hexp : ¬ tok.payload.exp < now)
    (hsub : tok.payload.sub = some uid)
    (hrig : ¬ (ss.isEmpty || ss.any (fun s => decide (s ∈ tok.payload.scopes)))
        = false)
    (st : Store) :
    get_current_user cfg ss tok st now =
      match find_one_or_none_by_id_with_tokens st.users uid with
      | none => Except.error AuthError.UserNotFoundException
      | some user =>
        match lookup_access_token st.tokens user.id tok with
        | none => Except.error AuthError.TokenMismatchException
        | some _ =>
          if user.is_banned then Except.error AuthError.UserBannedException
          else Except.ok user := by
  unfold get_current_user jose_decode
  rw [if_neg (not_not_intro hkey), if_neg hexp]
  dsimp only
  rw [hsub]
  dsimp only
  rw [if_neg hrig, if_neg hexp]

/-- When one of the four token-only checks fails, the gate returns that
check's deny reason whatever the store holds. -/
theorem gate_early_error {cfg : ApiTokens} {ss : List String} {tok : Jwt}
    {now : Nat} {e : AuthError}
    (h : early_checks cfg ss tok now = some e) (st : Store) :
    get_current_user cfg ss tok st now = Except.error e := by
  unfold early_checks at h
  unfold get_current_user jose_decode
  split at h
  · rename_i hkey
    injection h with h
    subst h
    rw [if_pos hkey]
  · rename_i hkey
    split at h
    · rename_i hexp
      injection h with h
      subst h
      rw [if_neg hkey, if_pos hexp]
    · rename_i hexp
      split at h
      · rename_i hsub
        injection h with h
        subst h
        rw [if_neg hkey, if_neg hexp]
        dsimp only
        rw [hsub]
      · rename_i uid hsub
        split at h
        · rename_i hrig
          injection h with h
          subst h
          rw [if_neg hkey, if_neg hexp]
          dsimp only
          rw [hsub]
          dsimp only
          rw [if_pos hrig]
        · cases h

/-- C1 counterexample: at a concrete issuance — account 1 holding one live
ACCESS row, requesting scopes USER — the resulting store holds no
non-banned ACCESS row at all, so the freshly minted ACCESS token was not
persisted as a non-banned Token row, contrary to the claim. -/
theorem c1_counterexample :
    ¬ ∃ t ∈ (creating_recording_all_token_to_user cfg0 [oldAccessRow] 1
        {"USER"} 0).1, t.ban = false ∧ t.token_type = TokenTypeEnum.ACCESS := by
  decide

/-- C1 (amended): within the one transaction of
`creating_recording_all_token_to_user`, every previously existing token row
of the account appears banned in the result, and the only non-banned row of
the account is the newly minted REFRESH token, persisted with `ban=false`
and linked to the account; the ACCESS token is returned but not
persisted. -/
theorem c1_only_refresh_persisted (cfg : ApiTokens) (tokens : List Token)
    (uid : Nat) (scopes : Finset String) (now : Nat) :
    (∀ t ∈ tokens, t.user_id = uid →
      ({ t with ban := true }) ∈
        (creating_recording_all_token_to_user cfg tokens uid scopes now).1) ∧
    (∀ t ∈ (creating_recording_all_token_to_user cfg tokens uid scopes
        now).1, t.user_id = uid → t.ban = false →
      t.token_type = TokenTypeEnum.REFRESH ∧
      t.token = (creating_recording_all_token_to_user cfg tokens uid scopes
        now).2.2) ∧
    (⟨uid, (creating_recording_all_token_to_user cfg tokens uid scopes
        now).2.2, TokenTypeEnum.REFRESH, now + 15 * 60, false⟩ : Token) ∈
      (creating_recording_all_token_to_user cfg tokens uid scopes now).1 := by
  refine ⟨?_, ?_, ?_⟩
  · intro t ht huid
    unfold creating_recording_all_token_to_user
    simp only [List.mem_append, List.mem_map]
    exact Or.inl ⟨t, ht, by rw [if_pos huid]⟩
  · intro t ht huid hban
    refine ⟨issue_no_active_access cfg tokens uid scopes now t ht huid hban,
      ?_⟩
    unfold creating_recording_all_token_to_user at ht ⊢
    simp only [List.mem_append, List.mem_map, List.mem_singleton] at ht
    rcases ht with ⟨s, _, hfs⟩ | hrow
    · by_cases hcase : s.user_id = uid
      · rw [if_pos hcase] at hfs
        rw [← hfs] at hban
        cases hban
      · rw [if_neg hcase] at hfs
        rw [← hfs] at huid
        exact absurd huid hcase
    · rw [hrow]
  · unfold creating_recording_all_token_to_user
    simp only [List.mem_append, List.mem_singleton]
    exact Or.inr rfl

/-- C1 witness: the concrete pre-existing live ACCESS row of account 1 is
banned in the store the issuance returns. -/
theorem c1_only_refresh_persisted_witness :
    ({ oldAccessRow with ban := true } : Token) ∈
      (creating_recording_all_token_to_user cfg0 [oldAccessRow] 1 {"USER"}
        0).1 :=
  (c1_only_refresh_persisted cfg0 [oldAccessRow] 1 {"USER"} 0).1 oldAccessRow
    (List.mem_singleton.mpr rfl) rfl

/-- C2: after a successful login the store holds no non-banned ACCESS row
for the account (register runs the same token service; the refresh path —
last conjunct — writes nothing), so the gate query for the freshly minted
access-token string finds no row, `get_current_user` never allows that
token, and whenever its token-only checks and user lookup pass it denies
with `TokenMismatchException`. -/
theorem c2_minted_access_never_allowed (cfg : ApiTokens) (st : Store)
    (email password : String) (scopes : Finset String) (now : Nat)
    (st2 : Store) (a r : Jwt)
    (h : login_user cfg st email password scopes now
      = (st2, Except.ok (a, r))) :
    (∀ uid, a.payload.sub = some uid →
      lookup_access_token st2.tokens uid a = none) ∧
    (∀ ss now2 u, get_current_user cfg ss a st2 now2 ≠ Except.ok u) ∧
    (∀ ss now2 uid u, a.payload.sub = some uid →
      find_one_or_none_by_id_with_tokens st2.users uid = some u →
      a.key = cfg.TAPI_TOKEN_ACCESS_SECRET_KEY →
      ¬ a.payload.exp < now2 →
      ¬ (ss.isEmpty || ss.any (fun s => decide (s ∈ a.payload.scopes)))
          = false →
      get_current_user cfg ss a st2 now2
        = Except.error AuthError.TokenMismatchException) ∧
    (∀ stR ck now2, (refresh cfg stR ck now2).1 = stR) := by
  obtain ⟨user, hf, hb, hsubset, hst2, ha, hr⟩ := login_user_ok_elim h
  have hasub : a.payload.sub = some user.id := by rw [ha]; rfl
  have hnoacc : ∀ t ∈ st2.tokens, t.user_id = user.id → t.ban = false →
      t.token_type = TokenTypeEnum.REFRESH := by
    rw [hst2]
    exact issue_no_active_access cfg st.tokens user.id _ now
  have hlk : ∀ uid, a.payload.sub = some uid →
      lookup_access_token st2.tokens uid a = none := by
    intro uid h2
    have he : uid = user.id := by
      rw [hasub] at h2
      exact (Option.some.inj h2).symm
    subst he
    exact lookup_access_none_of_no_active hnoacc
  refine ⟨hlk, ?_, ?_, ?_⟩
  · intro ss now2 u
    exact @gate_not_ok_of_lookup_none cfg ss a st2 now2 hlk u
  · intro ss now2 uid u hsubu hfind hkey hexp hrig
    have hfind2 : st2.users.find? (fun v => decide (v.id = uid)) = some u :=
      hfind
    have hui := List.find?_some hfind2
    simp only [decide_eq_true_eq] at hui
    rw [gate_store_phase uid hkey hexp hsubu hrig st2, hfind]
    dsimp only
    rw [hui, hlk uid hsubu]
  · intro stR ck now2
    unfold refresh
    cases ck with
    | none => rfl
    | some rt =>
      dsimp only
      cases jose_decode rt cfg.TAPI_TOKEN_REFRESH_SECRET_KEY now2 with
      | error e => rfl
      | ok payload =>
        dsimp only
        cases payload.sub with
        | none => rfl
        | some uid =>
          dsimp only
          cases find_one_or_none_by_id_with_tokens stR.users uid with
          | none => rfl
          | some user2 =>
            dsimp only
            cases lookup_refresh_token stR.tokens user2.id rt with
            | none => rfl
            | some t => rfl

/-- C2 witness: with the concrete post-login store, the lookup for the
minted access token is empty, the gate never allows it, and it denies with
`TokenMismatchException`. -/
theorem c2_minted_access_never_allowed_witness :
    lookup_access_token st2c.tokens 1 aTok = none ∧
    (∀ u, get_current_user cfg0 [] aTok st2c 0 ≠ Except.ok u) ∧
    get_current_user cfg0 [] aTok st2c 0
      = Except.error AuthError.TokenMismatchException := by
  have h := c2_minted_access_never_allowed cfg0 st5 "u@x.com" "correct" ∅ 0
    st2c aTok aTok (by decide)
  exact ⟨h.1 1 (by decide), fun u => h.2.1 [] 0 u,
    h.2.2.1 [] 0 1 user5 (by decide) (by decide) (by decide) (by decide)
      (by decide)⟩

/-- C3: minting a REFRESH token goes through `create_token` with its
default kind, so the token is signed with the ACCESS secret and expires 15
minutes after minting, and verifying it with the refresh secret fails —
the opposite of the claimed key separation for refresh tokens. -/
theorem c3_refresh_minted_with_access_secret :
    (creating_recording_token_to_user cfg0 0 1 {"USER"}
        TokenTypeEnum.REFRESH).token.key
      = cfg0.TAPI_TOKEN_ACCESS_SECRET_KEY ∧
    (creating_recording_token_to_user cfg0 0 1 {"USER"}
        TokenTypeEnum.REFRESH).expires_at = 15 * 60 ∧
    cfg0.TAPI_TOKEN_ACCESS_SECRET_KEY
      ≠ cfg0.TAPI_TOKEN_REFRESH_SECRET_KEY ∧
    jose_decode (creating_recording_token_to_user cfg0 0 1 {"USER"}
        TokenTypeEnum.REFRESH).token
      cfg0.TAPI_TOKEN_REFRESH_SECRET_KEY 0
      = Except.error JwtDecodeError.jwtError := by
  decide

/-- C4: redeeming the same reset-password token twice succeeds both times
— the handler never sets `ban=true` on the `ResetPasswordToken` row, so the
password change is applied again on replay — while the email-verification
variant does ban its row and denies the second redemption as expired. -/
theorem c4_reset_password_token_replayable :
    (applying_new_password st4 "rpt" "p1" 0).2 = BgResult.success ∧
    (applying_new_password (applying_new_password st4 "rpt" "p1" 0).1 "rpt"
      "p2" 0).2 = BgResult.success ∧
    ((applying_new_password (applying_new_password st4 "rpt" "p1" 0).1 "rpt"
      "p2" 0).1.users.map User.password) = [("p2" : String)] ∧
    ((applying_new_password st4 "rpt" "p1" 0).1.reset_password_tokens.map
      VerificationTokenRow.ban) = [false] ∧
    (verify_email st4 "evt" 0).2 = BgResult.success ∧
    (verify_email (verify_email st4 "evt" 0).1 "evt" 0).2
      = BgResult.TokenExpiredException := by
  decide

/-- C5: the login endpoint never touches the failed-attempt counter: a
wrong-password login raises `RefreshPasswordInvalidException` and leaves
the store unchanged, ten such attempts leave it unchanged, the stored
counter is still 0 and the account unlocked, and the 11th attempt with the
correct password succeeds instead of being denied as locked. -/
theorem c5_lockout_never_triggers :
    login_user cfg0 st5 "u@x.com" "wrong" ∅ 0
      = (st5, Except.error AuthError.RefreshPasswordInvalidException) ∧
    (fun s => (login_user cfg0 s "u@x.com" "wrong" ∅ 0).1)^[10] st5 = st5 ∧
    (st5.users.map User.failed_attempts = [0] ∧
      st5.users.map User.is_banned = [false]) ∧
    (login_user cfg0 st5 "u@x.com" "correct" ∅ 0).2
      = Except.ok (aTok, aTok) := by
  decide

/-- C6 counterexample: a successful refresh whose cookie carries an empty
scope list mints an access token whose scope set is empty, not the
account's full current role set (USER). -/
theorem c6_counterexample :
    refresh cfg0 st6 (some tr6) 0 = (st6, Except.ok acc6) ∧
    tr6.payload.scopes = (∅ : Finset String) ∧
    st6.users.map User.roles = [({"USER"} : Finset String)] ∧
    acc6.payload.scopes ≠ ({"USER"} : Finset String) := by
  decide

/-- C6 (amended): a minted login token decodes to the subject of the
authenticated account and to the scope set granted at login — the full role
set when no scopes were requested, otherwise the intersection of roles and
request — always a subset of the roles, and the refresh token carries the
same claims; a minted refresh-path token decodes to the cookie's subject
and to the roles ∩ cookie scopes when the cookie scopes are non-empty, but
to the empty set (not the full role set) when the cookie scope list is
empty. -/
theorem c6_mint_decode_roundtrip (cfg : ApiTokens) (st : Store)
    (email password : String) (scopes : Finset String) (now : Nat)
    (st2 : Store) (a r : Jwt) (stR stR2 : Store) (ck aR : Jwt) (nowR : Nat)
    (h : login_user cfg st email password scopes now
      = (st2, Except.ok (a, r)))
    (hR : refresh cfg stR (some ck) nowR = (stR2, Except.ok aR)) :
    (∃ user, find_user_by_email st.users email = some user ∧
      a.payload.sub = some user.id ∧
      a.payload.scopes
        = (if scopes = ∅ then user.roles else user.roles ∩ scopes) ∧
      a.payload.scopes ⊆ user.roles ∧
      (scopes = ∅ → a.payload.scopes = user.roles) ∧
      r.payload = a.payload) ∧
    (∃ uid user, ck.payload.sub = some uid ∧
      find_one_or_none_by_id_with_tokens stR.users uid = some user ∧
      aR.payload.sub = some user.id ∧
      aR.payload.scopes ⊆ user.roles ∧
      (ck.payload.scopes ≠ ∅ →
        aR.payload.scopes = user.roles ∩ ck.payload.scopes) ∧
      (ck.payload.scopes = ∅ → aR.payload.scopes = (∅ : Finset String))) := by
  constructor
  · obtain ⟨user, hf, hb, hsubset, hst2, ha, hr⟩ := login_user_ok_elim h
    have hsc : a.payload.scopes
        = (if scopes = ∅ then user.roles else user.roles ∩ scopes) := by
      rw [ha]; rfl
    refine ⟨user, hf, by rw [ha]; rfl, hsc, ?_, ?_, by rw [ha, hr]; rfl⟩
    · rw [hsc]
      by_cases he : scopes = ∅
      · rw [if_pos he]
      · rw [if_neg he]
        exact Finset.inter_subset_left
    · intro he
      rw [hsc, if_pos he]
  · obtain ⟨hst, uid, user, hcs, hfu, haR⟩ := refresh_ok_elim hR
    have hscR : aR.payload.scopes
        = (if ck.payload.scopes = ∅ then ck.payload.scopes
           else user.roles ∩ ck.payload.scopes) := by
      rw [haR]; rfl
    refine ⟨uid, user, hcs, hfu, by rw [haR]; rfl, ?_, ?_, ?_⟩
    · rw [hscR]
      by_cases he : ck.payload.scopes = ∅
      · rw [if_pos he, he]
        exact Finset.empty_subset _
      · rw [if_neg he]
        exact Finset.inter_subset_left
    · intro he
      rw [hscR, if_neg he]
    · intro he
      rw [hscR, if_pos he]
      exact he

/-- C6 witness: the concrete login of `user5` with no requested scopes and
the concrete empty-scoped refresh of cookie `tr6`. -/
theorem c6_mint_decode_roundtrip_witness :
    (∃ user, find_user_by_email st5.users "u@x.com" = some user ∧
      aTok.payload.sub = some user.id ∧
      aTok.payload.scopes = (if (∅ : Finset String) = ∅ then user.roles
        else user.roles ∩ ∅) ∧
      aTok.payload.scopes ⊆ user.roles ∧
      ((∅ : Finset String) = ∅ → aTok.payload.scopes = user.roles) ∧
      aTok.payload = aTok.payload) ∧
    (∃ uid user, tr6.payload.sub = some uid ∧
      find_one_or_none_by_id_with_tokens st6.users uid = some user ∧
      acc6.payload.sub = some user.id ∧
      acc6.payload.scopes ⊆ user.roles ∧
      (tr6.payload.scopes ≠ ∅ →
        acc6.payload.scopes = user.roles ∩ tr6.payload.scopes) ∧
      (tr6.payload.scopes = ∅ →
        acc6.payload.scopes = (∅ : Finset String))) :=
  c6_mint_decode_roundtrip cfg0 st5 "u@x.com" "correct" ∅ 0 st2c aTok aTok
    st6 st6 tr6 acc6 0 (by decide) (by decide)

/-- C7: a concrete account locked until t = 100, touched by a
correct-password login attempt at t = 200, is denied as banned with its
ban fields untouched — the lazy reset the claim requires on every touch is
implemented only in `check_user_ban` (last conjunct), which the login path
never calls. -/
theorem c7_login_skips_lazy_unban :
    login_user cfg0 st7 "u@x.com" "correct" ∅ 200
      = (st7, Except.error AuthError.UserBannedException) ∧
    st7.users.map User.is_banned = [true] ∧
    st7.users.map User.ban_until = [some 100] ∧
    check_user_ban user7 200
      = some ({ user7 with is_banned := false, failed_attempts := 0, ban_until := none }, none) := by
  decide

/-- C8: for a non-locked account the failed-login handler increments the
counter by one; a cumulative count of exactly 9 does not lock, and the
10th cumulative failed attempt locks with `ban_until = now + 10` minutes
and produces the 403 lockout response. -/
theorem c8_lock_boundary (user : User) (now : Nat)
    (h : user.is_banned = false) :
    (handle_failed_login user now).1.failed_attempts
      = user.failed_attempts + 1 ∧
    (user.failed_attempts + 1 = 9 →
      (handle_failed_login user now).1.is_banned = false ∧
      (handle_failed_login user now).2 = false) ∧
    (user.failed_attempts + 1 = 10 →
      (handle_failed_login user now).1.is_banned = true ∧
      (handle_failed_login user now).1.ban_until = some (now + 10 * 60) ∧
      (handle_failed_login user now).2 = true) := by
  unfold handle_failed_login
  rw [h]
  simp only [Bool.false_eq_true, if_false]
  by_cases h10 : 10 ≤ user.failed_attempts + 1
  · rw [if_pos h10]
    refine ⟨rfl, ?_, ?_⟩
    · intro h9
      omega
    · intro _
      exact ⟨rfl, rfl, rfl⟩
  · rw [if_neg h10]
    refine ⟨rfl, ?_, ?_⟩
    · intro _
      exact ⟨rfl, rfl⟩
    · intro h10e
      omega

/-- C8 witness: at counter 8 the handler reaches 9 and does not lock; at
counter 9 it reaches 10 and locks until t = 600. -/
theorem c8_lock_boundary_witness :
    (handle_failed_login user8 0).1.is_banned = false ∧
    (handle_failed_login user9c 0).1.is_banned = true ∧
    (handle_failed_login user9c 0).1.ban_until = some 600 := by
  refine ⟨((c8_lock_boundary user8 0 rfl).2.1 rfl).1, ?_, ?_⟩
  · exact ((c8_lock_boundary user9c 0 rfl).2.2 rfl).1
  · exact ((c8_lock_boundary user9c 0 rfl).2.2 rfl).2.1

/-- C9 counterexample: a well-signed token that is both expired and lacking
the required scope is denied as expired, not forbidden — the expiry
rejection happens inside decode, before the required-scope check, contrary
to the claimed check order. -/
theorem c9_counterexample :
    (["ADMIN"].isEmpty ||
      ["ADMIN"].any (fun s => decide (s ∈ tok9.payload.scopes))) = false ∧
    get_current_user cfg0 ["ADMIN"] tok9 st5 200
      = Except.error AuthError.TokenExpiredException ∧
    AuthError.TokenExpiredException ≠ AuthError.ForbiddenAccessException := by
  decide

/-- C9 (amended): the gate runs its four token-only checks — decode
signature (invalid_signature), expiry as part of decode (expired), subject
presence (subject_missing), required-scope overlap (forbidden) — strictly
before any data-store access: when one fails the result is that check's
deny reason for every store; only when all pass does the result become the
store phase — account lookup, stored non-banned ACCESS token lookup,
account-ban check, in that order, each with its own deny reason.  (An
expired token is denied as expired even when the scope check would also
fail, because decode enforces expiry.) -/
theorem c9_gate_check_order (cfg : ApiTokens) (ss : List String) (tok : Jwt)
    (now : Nat) :
    (∀ e, early_checks cfg ss tok now = some e →
      ∀ st : Store, get_current_user cfg ss tok st now = Except.error e) ∧
    (∀ uid, early_checks cfg ss tok now = none →
      tok.payload.sub = some uid →
      ∀ st : Store, get_current_user cfg ss tok st now =
        match find_one_or_none_by_id_with_tokens st.users uid with
        | none => Except.error AuthError.UserNotFoundException
        | some user =>
          match lookup_access_token st.tokens user.id tok with
          | none => Except.error AuthError.TokenMismatchException
          | some _ =>
            if user.is_banned then Except.error AuthError.UserBannedException
            else Except.ok user) := by
  constructor
  · intro e he st
    exact gate_early_error he st
  · intro uid he hsub st
    obtain ⟨hkey, hexp, _, hrig⟩ := early_checks_none_elim he
    exact gate_store_phase uid hkey hexp hsub hrig st

/-- C9 witness: the expired `tok9` fails the early phase, so the gate denies
it as expired on the concrete store. -/
theorem c9_gate_check_order_witness :
    get_current_user cfg0 ["ADMIN"] tok9 st5 200
      = Except.error AuthError.TokenExpiredException :=
  (c9_gate_check_order cfg0 ["ADMIN"] tok9 200).1
    AuthError.TokenExpiredException (by decide) st5

/-- C10: logout returns a response deleting the four authentication cookies
but leaves the token store untouched — the live REFRESH row of the account
is still present and non-banned afterwards, because
`user_data.tokens.ban = True` modifies no Token row. -/
theorem c10_logout_leaves_token_rows :
    logout_user st6 user5
      = (st6, ⟨["access_token", "refresh_token", "site_token",
          "csrf_token"]⟩) ∧
    row6 ∈ (logout_user st6 user5).1.tokens ∧
    row6.ban = false ∧ row6.token_type = TokenTypeEnum.REFRESH ∧
    row6.user_id = user5.id := by
  decide

end TrainerAuth
